import Mathlib

set_option linter.unusedSectionVars false
set_option linter.unusedVariables false

/-!
Verification of the ipwatcher repository (an external-IP change watcher).

The development shallowly embeds the three source modules:
* `src/ip.rs`   — the address resolver `query_external_ip`;
* `src/db.rs`   — the SQLite-backed history store (`get_last_ip`, `save_ip`);
* `src/main.rs` — the scheduler: startup jitter, config/db/mailer setup,
  the initial check, and the periodic `poll_loop` raced against Ctrl+C.

IP addresses are modeled as an arbitrary type `Addr` with decidable
equality (Rust's `IpAddr` is only ever parsed, compared and stored here);
Rust's `str::parse::<IpAddr>` is abstracted as a parameter
`parseIp : String → Option Addr`.  The network, the store backend and the
SMTP transport are modeled as per-cycle environments saying how each
external call behaves.
-/

namespace IpWatcher

/-- Model of one HTTP fetch against a source URL (`http.get(url).send()`
in `src/ip.rs`): either a transport error, or a response carrying the
`resp.status().is_success()` flag and a body.  A body of `none` models a
failing `resp.text()`, which the code replaces with the empty string via
`unwrap_or_default()`. -/
inductive FetchOutcome where
  | transportErr : FetchOutcome
  | response (statusSuccess : Bool) (body : Option String) : FetchOutcome
deriving DecidableEq

/-- The built-in default source list of `query_external_ip` (`src/ip.rs`). -/
def defaultSources : List String :=
  ["https://api.ipify.org", "https://ifconfig.me/ip",
   "https://ident.me", "https://checkip.amazonaws.com"]

/-- Errors of `query_external_ip`: `IpError::NoSources`, and the anyhow
error "All IP sources failed or returned invalid data". -/
inductive QueryError where
  | NoSources : QueryError
  | AllSourcesFailed : QueryError
deriving DecidableEq

/-- The `ip_history` table of `src/db.rs`, as the list of stored addresses
in insertion (`id`) order.  `save_ip` stores `ip.to_string()` and
`get_last_ip` parses the text back; the textual form of an `IpAddr`
round-trips, so rows are modeled as address values directly. -/
abbrev Store (Addr : Type) := List Addr

/-- Environment of one scheduler cycle: how the network behaves during the
resolve step, and whether the store read (`get_last_ip`), the store write
(`save_ip`) and the SMTP send (`send_ip_email`) succeed in this cycle. -/
structure CycleEnv (Addr : Type) where
  fetch : String → FetchOutcome
  readOk : Bool
  writeOk : Bool
  notifyOk : Bool

/-- What one scheduler cycle did: the store it leaves behind, the append it
attempted (address, and whether the write succeeded), the notification it
attempted (address, and the `first_time` subject flag), and whether an
attempted send succeeded (`true` when no send was attempted). -/
structure CycleOutcome (Addr : Type) where
  store : Store Addr
  appendResult : Option (Addr × Bool)
  notifyAttempt : Option (Addr × Bool)
  notifySendOk : Bool
deriving DecidableEq

/-- When the external cancellation (Ctrl+C) is requested, relative to the
phases of `main`.  `signal::ctrl_c()` installs its SIGINT handler only
when it is first polled, inside the `tokio::select!` of `src/main.rs`; a
signal arriving earlier — in particular during the startup jitter sleep —
hits the default disposition and terminates the process on the spot.  A
signal arriving during the `(m+1)`-th inter-cycle wait is received by the
select, whose cancellation branch then wins the race against the polling
loop. -/
inductive CancelTime where
  | duringJitter : CancelTime
  | duringWait (m : Nat) : CancelTime
  | never : CancelTime
deriving DecidableEq

/-- Environment of a whole process run: the random jitter seed, whether
each startup step succeeds (`load_from`, `init_db`, `build_mailer`,
`Client::builder().build()`), the configured sources and interval, the
store contents found on disk at startup, the per-cycle environments, and
when cancellation is requested. -/
structure RunEnv (Addr : Type) where
  jitterSeed : Nat
  configOk : Bool
  dbOk : Bool
  mailerOk : Bool
  httpOk : Bool
  sources : Option (List String)
  checkIntervalSecs : Nat
  initialStore : Store Addr
  initialEnv : CycleEnv Addr
  loopEnvs : Nat → CycleEnv Addr
  cancel : CancelTime

/-- Observable events of a run, in the order `main` performs them. -/
inductive Event (Addr : Type) where
  | jitterSleep (secs : Nat) : Event Addr
  | loadConfig : Event Addr
  | initDb : Event Addr
  | buildMailer : Event Addr
  | buildHttpClient : Event Addr
  | resolveAttempt : Event Addr
  | appendObs (a : Addr) : Event Addr
  | notifySend (a : Addr) (first : Bool) : Event Addr
deriving DecidableEq

/-- Result of a (fuel-truncated) process run: the event trace, the outcome
of the initial check in `main` (if the run reached it), the polling-loop
iterations each recorded with its environment and entry store, and whether
the run ended abnormally — `main` returned an error, or the process was
killed by a signal received before the SIGINT handler was installed. -/
structure RunResult (Addr : Type) where
  trace : List (Event Addr)
  initialOutcome : Option (CycleOutcome Addr)
  pollTrace : List (CycleEnv Addr × Store Addr × CycleOutcome Addr)
  exitedWithError : Bool

section

variable {Addr : Type} [DecidableEq Addr]

/-- Rust's `str::trim`: strip whitespace from both ends of the text
(modeled on the string's character list; `Char.isWhitespace` covers the
common whitespace characters Rust strips). -/
def rustTrim (s : String) : String :=
  ⟨((s.data.dropWhile Char.isWhitespace).reverse.dropWhile Char.isWhitespace).reverse⟩

/-- One iteration of the source loop of `query_external_ip` (`src/ip.rs`):
fetch the URL; on a response with a success status, take the body (empty
if the body read failed), trim it and parse it; any other outcome yields
nothing for this source. -/
def sourceGivesIp (parseIp : String → Option Addr) (fetch : String → FetchOutcome)
    (url : String) : Option Addr :=
  match fetch url with
  | FetchOutcome.response true body => parseIp (rustTrim (body.getD ""))
  | _ => none

/-- The `for url in list` loop of `query_external_ip`: sources are tried
strictly in order and the first parsed address is returned. -/
def tryAll (step : String → Option Addr) : List String → Option Addr
  | [] => none
  | u :: rest =>
    match step u with
    | some ip => some ip
    | none => tryAll step rest

/-- `query_external_ip` (`src/ip.rs`): `None` sources fall back to the
default list; an empty list fails with `NoSources` before the loop; then
the sources are tried in order, and if the loop exhausts the list the call
fails with `AllSourcesFailed`. -/
def query_external_ip (parseIp : String → Option Addr) (fetch : String → FetchOutcome)
    (sources : Option (List String)) : Except QueryError Addr :=
  let list := sources.getD defaultSources
  if list.isEmpty then Except.error QueryError.NoSources
  else
    match tryAll (sourceGivesIp parseIp fetch) list with
    | some ip => Except.ok ip
    | none => Except.error QueryError.AllSourcesFailed

/-- The URLs the source loop actually fetches: each iteration performs
exactly one `http.get(url).send()`, and the loop stops after the first
source that yields an address. -/
def fetchedUrls (parseIp : String → Option Addr) (fetch : String → FetchOutcome) :
    List String → List String
  | [] => []
  | u :: rest =>
    match sourceGivesIp parseIp fetch u with
    | some _ => [u]
    | none => u :: fetchedUrls parseIp fetch rest

/-- The URLs fetched by a whole `query_external_ip` call: the empty-list
guard returns before any fetch happens. -/
def queryFetched (parseIp : String → Option Addr) (fetch : String → FetchOutcome)
    (sources : Option (List String)) : List String :=
  let list := sources.getD defaultSources
  if list.isEmpty then [] else fetchedUrls parseIp fetch list

/-- `get_last_ip` (`src/db.rs`): `SELECT ip FROM ip_history ORDER BY id
DESC LIMIT 1`, i.e. the most recently inserted row, or `none` if the table
is empty. -/
def get_last_ip (store : Store Addr) : Option Addr := store.getLast?

/-- `save_ip` (`src/db.rs`): `INSERT INTO ip_history (ip, changed_at)`
appends one row; prior rows are never reordered or overwritten. -/
def save_ip (store : Store Addr) (ip : Addr) : Store Addr := store ++ [ip]

/-- A store produced by a sequence of `save_ip` calls starting from the
freshly created (empty) table of `init_db`. -/
def buildStore (obs : List Addr) : Store Addr := obs.foldl save_ip []

/-- `cfg.check_interval_secs.max(30)` in `main` (`src/main.rs`): the
effective polling interval in seconds. -/
def effectiveInterval (checkIntervalSecs : Nat) : Nat := max checkIntervalSecs 30

/-- `rand::random_range(3*60..=6*60)` in `main`: a uniform sample from the
inclusive range `180..=360`, modeled from an arbitrary random seed. -/
def jitterSecs (seed : Nat) : Nat := 180 + seed % 181

/-- The resolution a cycle performs, given the cycle's network behavior
(`query_external_ip(http, cfg.ip_sources.clone())`). -/
def resolveOf (parseIp : String → Option Addr) (sources : Option (List String))
    (e : CycleEnv Addr) : Except QueryError Addr :=
  query_external_ip parseIp e.fetch sources

/-- One iteration of `poll_loop` (`src/main.rs`) after its sleep: resolve
(on failure, log and end the cycle); read the last stored address (on
failure, log and end the cycle); if the resolved address differs from the
stored one — including the case where nothing is stored — append it (on a
write failure, `continue` ends the cycle before any send), then attempt
one notification with `first_time = false`. -/
def pollCycle (parseIp : String → Option Addr) (sources : Option (List String))
    (e : CycleEnv Addr) (store : Store Addr) : CycleOutcome Addr :=
  match resolveOf parseIp sources e with
  | Except.error _ => ⟨store, none, none, true⟩
  | Except.ok ip =>
    if e.readOk then
      let last := get_last_ip store
      if some ip ≠ last then
        if e.writeOk then
          ⟨save_ip store ip, some (ip, true), some (ip, false), e.notifyOk⟩
        else
          ⟨store, some (ip, false), none, true⟩
      else ⟨store, none, none, true⟩
    else ⟨store, none, none, true⟩

/-- The initial check in `main` (`src/main.rs`, steps 4): every failing
step there uses `?`, so a resolution failure, a store read failure, a
store write failure or a send failure makes `main` return an error.  The
returned flag records whether `main` goes on into the polling loop. -/
def initialCycle (parseIp : String → Option Addr) (sources : Option (List String))
    (e : CycleEnv Addr) (store : Store Addr) : CycleOutcome Addr × Bool :=
  match resolveOf parseIp sources e with
  | Except.error _ => (⟨store, none, none, true⟩, false)
  | Except.ok current_ip =>
    if e.readOk then
      match get_last_ip store with
      | none =>
        if e.writeOk then
          (⟨save_ip store current_ip, some (current_ip, true),
            some (current_ip, true), e.notifyOk⟩, e.notifyOk)
        else (⟨store, some (current_ip, false), none, true⟩, false)
      | some last =>
        if current_ip ≠ last then
          if e.writeOk then
            (⟨save_ip store current_ip, some (current_ip, true),
              some (current_ip, false), e.notifyOk⟩, e.notifyOk)
          else (⟨store, some (current_ip, false), none, true⟩, false)
        else (⟨store, none, none, true⟩, true)
    else (⟨store, none, none, true⟩, false)

/-- The polling loop, instrumented: each iteration is recorded together
with its environment and the store it starts from; the next iteration runs
on the store the previous one left behind. -/
def chainStates (parseIp : String → Option Addr) (sources : Option (List String)) :
    List (CycleEnv Addr) → Store Addr →
      List (CycleEnv Addr × Store Addr × CycleOutcome Addr)
  | [], _ => []
  | e :: rest, store =>
    let o := pollCycle parseIp sources e store
    (e, store, o) :: chainStates parseIp sources rest o.store

/-- How many polling-loop iterations complete before the `tokio::select!`
resolves the cancellation branch, cut off at the modeling fuel.  A signal
arriving during the `(m+1)`-th inter-cycle sleep lets exactly `m`
iterations finish; with no signal the loop never exits by itself.  A
jitter-time signal kills the process long before the select, so the loop
never starts (that case never consults this budget). -/
def pollBudget (cancel : CancelTime) (fuel : Nat) : Nat :=
  match cancel with
  | CancelTime.never => fuel
  | CancelTime.duringWait m => min m fuel
  | CancelTime.duringJitter => 0

/-- The events one cycle contributes to the run trace: the resolve
attempt, then any append, then any notification attempt. -/
def cycleEvents (o : CycleOutcome Addr) : List (Event Addr) :=
  Event.resolveAttempt ::
    ((match o.appendResult with
      | some (a, _) => [Event.appendObs a]
      | none => []) ++
     (match o.notifyAttempt with
      | some (a, f) => [Event.notifySend a f]
      | none => []))

/-- `main` (`src/main.rs`): the jitter sleep, then config load, db open,
mailer construction and HTTP client construction (each failure makes
`main` return an error), then the initial check (whose failures also make
`main` return an error), then the polling loop raced against the
cancellation signal.  A Ctrl+C during the startup jitter sleep finds no
SIGINT handler installed — `signal::ctrl_c()` registers one only when
first polled, inside the `tokio::select!` — so the default disposition
terminates the process mid-sleep: the trace records only the interrupted
jitter sleep, and no config load, store access, cycle, or notification
ever happens. -/
def runMain (parseIp : String → Option Addr) (env : RunEnv Addr) (fuel : Nat) :
    RunResult Addr :=
  let jEv : Event Addr := Event.jitterSleep (jitterSecs env.jitterSeed)
  if env.cancel = CancelTime.duringJitter then
    ⟨[jEv], none, [], true⟩
  else if env.configOk = false then
    ⟨[jEv, Event.loadConfig], none, [], true⟩
  else if env.dbOk = false then
    ⟨[jEv, Event.loadConfig, Event.initDb], none, [], true⟩
  else if env.mailerOk = false then
    ⟨[jEv, Event.loadConfig, Event.initDb, Event.buildMailer], none, [], true⟩
  else if env.httpOk = false then
    ⟨[jEv, Event.loadConfig, Event.initDb, Event.buildMailer,
      Event.buildHttpClient], none, [], true⟩
  else
    let o := (initialCycle parseIp env.sources env.initialEnv env.initialStore).1
    let cont := (initialCycle parseIp env.sources env.initialEnv env.initialStore).2
    let pre := [jEv, Event.loadConfig, Event.initDb, Event.buildMailer,
      Event.buildHttpClient] ++ cycleEvents o
    if cont then
      let outs := chainStates parseIp env.sources
        ((List.range (pollBudget env.cancel fuel)).map env.loopEnvs) o.store
      ⟨pre ++ (outs.map (fun t => cycleEvents t.2.2)).flatten, some o, outs, false⟩
    else
      ⟨pre, some o, [], true⟩

/-- The scheduler decision table of the spec, as a predicate relating the
store's prior address and the resolved address to one cycle's append and
notification attempt. -/
def decisionTableOk (prior : Option Addr) (x : Addr) (o : CycleOutcome Addr) : Prop :=
  match prior with
  | none => o.appendResult = some (x, true) ∧ o.notifyAttempt = some (x, true)
  | some y =>
    (y = x → o.appendResult = none ∧ o.notifyAttempt = none)
    ∧ (y ≠ x → o.appendResult = some (x, true) ∧ o.notifyAttempt = some (x, false))

/-! Helper lemmas about the resolver loop. -/

lemma tryAll_append_none (step : String → Option Addr) :
    ∀ (l1 : List String), (∀ v ∈ l1, step v = none) →
      ∀ (l2 : List String), tryAll step (l1 ++ l2) = tryAll step l2
  | [], _, l2 => rfl
  | u :: rest, h1, l2 => by
    have hu : step u = none := h1 u (List.mem_cons_self u rest)
    simp only [List.cons_append, tryAll, hu]
    exact tryAll_append_none step rest (fun v hv => h1 v (List.mem_cons_of_mem u hv)) l2

lemma tryAll_eq_none_iff (step : String → Option Addr) :
    ∀ l : List String, tryAll step l = none ↔ ∀ u ∈ l, step u = none
  | [] => by simp [tryAll]
  | u :: rest => by
    cases hu : step u with
    | some a => simp [tryAll, hu]
    | none => simp [tryAll, hu, tryAll_eq_none_iff step rest]

/-! Helper lemmas about the history store. -/

lemma get_last_save (store : Store Addr) (ip : Addr) :
    get_last_ip (save_ip store ip) = some ip := by
  simp [get_last_ip, save_ip, List.getLast?_append_cons]

lemma get_last_mem {store : Store Addr} {a : Addr} (h : get_last_ip store = some a) :
    a ∈ store := by
  have h1 : a ∈ store.getLast? := Option.mem_def.mpr h
  rcases List.mem_getLast?_eq_getLast h1 with ⟨hne, heq⟩
  rw [heq]
  exact List.getLast_mem hne

lemma get_last_ne_nil {store : Store Addr} {a : Addr} (h : get_last_ip store = some a) :
    store ≠ [] := by
  intro hnil
  rw [hnil] at h
  simp [get_last_ip] at h

lemma getLast_of_ne_nil {store : Store Addr} (h : store ≠ []) :
    ∃ a, get_last_ip store = some a := by
  cases hg : store.getLast? with
  | some a => exact ⟨a, hg⟩
  | none => exact absurd (List.getLast?_eq_none_iff.mp hg) h

lemma buildStore_eq (obs : List Addr) : buildStore obs = obs := by
  have h : ∀ (l acc : List Addr), l.foldl save_ip acc = acc ++ l := by
    intro l
    induction l with
    | nil => intro acc; simp
    | cons a rest ih => intro acc; simp [save_ip, ih]
  simpa [buildStore] using h obs []

/-! Helper lemmas about single scheduler cycles. -/

lemma pollCycle_store_ne_nil (parseIp : String → Option Addr)
    (sources : Option (List String)) (e : CycleEnv Addr) (store : Store Addr)
    (h : store ≠ []) : (pollCycle parseIp sources e store).store ≠ [] := by
  unfold pollCycle
  cases hres : resolveOf parseIp sources e with
  | error err => exact h
  | ok ip =>
    dsimp only
    split
    · split
      · split
        · simp [save_ip]
        · exact h
      · exact h
    · exact h

lemma pollCycle_unchanged (parseIp : String → Option Addr)
    (sources : Option (List String)) (e : CycleEnv Addr) (store : Store Addr) (a : Addr)
    (hlast : get_last_ip store = some a)
    (hres : ∀ b, resolveOf parseIp sources e = Except.ok b → b = a) :
    pollCycle parseIp sources e store = ⟨store, none, none, true⟩ := by
  unfold pollCycle
  cases h : resolveOf parseIp sources e with
  | error err => rfl
  | ok b =>
    have hb : b = a := hres b h
    subst hb
    dsimp only
    by_cases hr : e.readOk = true
    · simp [hr, hlast]
    · simp [hr]

lemma pollCycle_spec (parseIp : String → Option Addr)
    (sources : Option (List String)) (e : CycleEnv Addr) (store : Store Addr) :
    pollCycle parseIp sources e store = ⟨store, none, none, true⟩ ∨
    (∃ ip, resolveOf parseIp sources e = Except.ok ip ∧ e.readOk = true ∧
       some ip ≠ get_last_ip store ∧ e.writeOk = false ∧
       pollCycle parseIp sources e store = ⟨store, some (ip, false), none, true⟩) ∨
    (∃ ip, resolveOf parseIp sources e = Except.ok ip ∧ e.readOk = true ∧
       some ip ≠ get_last_ip store ∧ e.writeOk = true ∧
       pollCycle parseIp sources e store =
         ⟨save_ip store ip, some (ip, true), some (ip, false), e.notifyOk⟩) := by
  unfold pollCycle
  cases hres : resolveOf parseIp sources e with
  | error err => exact Or.inl rfl
  | ok ip =>
    dsimp only
    by_cases hr : e.readOk = true
    · by_cases hd : some ip ≠ get_last_ip store
      · by_cases hw : e.writeOk = true
        · refine Or.inr (Or.inr ⟨ip, rfl, hr, hd, hw, ?_⟩)
          simp [hr, hd, hw]
        · refine Or.inr (Or.inl ⟨ip, rfl, hr, hd, by simpa using hw, ?_⟩)
          simp [hr, hd, hw]
      · refine Or.inl ?_
        simp [hr, hd]
    · exact Or.inl (by simp [hr])

lemma pollCycle_append_store (parseIp : String → Option Addr)
    (sources : Option (List String)) (e : CycleEnv Addr) (store : Store Addr) (a : Addr)
    (h : (pollCycle parseIp sources e store).appendResult = some (a, true)) :
    (pollCycle parseIp sources e store).store = save_ip store a := by
  rcases pollCycle_spec parseIp sources e store with hc | ⟨ip, _, _, _, _, hc⟩ |
      ⟨ip, _, _, _, _, hc⟩ <;> rw [hc] at h ⊢
  · simp at h
  · simp at h
  · have h2 := Option.some.inj h
    have hip : ip = a := ((Prod.mk.injEq _ _ _ _).mp h2).1
    rw [hip]

lemma pollCycle_decision (parseIp : String → Option Addr)
    (sources : Option (List String)) (e : CycleEnv Addr) (st : Store Addr) (x : Addr)
    (hst : st ≠ []) (hx : resolveOf parseIp sources e = Except.ok x)
    (hr : e.readOk = true) (hw : e.writeOk = true) :
    decisionTableOk (get_last_ip st) x (pollCycle parseIp sources e st) := by
  obtain ⟨y, hy⟩ := getLast_of_ne_nil hst
  rw [hy]
  by_cases hxy : y = x
  · have hcyc : pollCycle parseIp sources e st = ⟨st, none, none, true⟩ := by
      unfold pollCycle
      rw [hx]
      dsimp only
      simp [hr, hy, hxy]
    rw [hcyc]
    simp [decisionTableOk, hxy]
  · have hne : some x ≠ get_last_ip st := by
      rw [hy]
      intro hcon
      exact hxy (Option.some.inj hcon).symm
    have hcyc : pollCycle parseIp sources e st =
        ⟨save_ip st x, some (x, true), some (x, false), e.notifyOk⟩ := by
      unfold pollCycle
      rw [hx]
      dsimp only
      simp [hr, hw, hne]
    rw [hcyc]
    simp [decisionTableOk, hxy]

/-- Exhaustive characterization of the initial check in `main`: either a
resolution or read failure ends `main` with no effect; or the address is
unchanged and `main` continues; or a write failure ends `main` after a
failed append and before any send; or the append succeeds, one send with
the matching `first_time` flag is attempted, and `main` continues iff the
send succeeds. -/
lemma initialCycle_spec (parseIp : String → Option Addr)
    (sources : Option (List String)) (e : CycleEnv Addr) (store : Store Addr) :
    (initialCycle parseIp sources e store = (⟨store, none, none, true⟩, false) ∧
       ((∃ err, resolveOf parseIp sources e = Except.error err) ∨ e.readOk = false)) ∨
    (∃ ip y, resolveOf parseIp sources e = Except.ok ip ∧ e.readOk = true ∧
       get_last_ip store = some y ∧ ip = y ∧
       initialCycle parseIp sources e store = (⟨store, none, none, true⟩, true)) ∨
    (∃ ip first, resolveOf parseIp sources e = Except.ok ip ∧ e.readOk = true ∧
       e.writeOk = false ∧
       ((first = true ∧ get_last_ip store = none) ∨
        (first = false ∧ ∃ y, get_last_ip store = some y ∧ ip ≠ y)) ∧
       initialCycle parseIp sources e store =
         (⟨store, some (ip, false), none, true⟩, false)) ∨
    (∃ ip first, resolveOf parseIp sources e = Except.ok ip ∧ e.readOk = true ∧
       e.writeOk = true ∧
       ((first = true ∧ get_last_ip store = none) ∨
        (first = false ∧ ∃ y, get_last_ip store = some y ∧ ip ≠ y)) ∧
       initialCycle parseIp sources e store =
         (⟨save_ip store ip, some (ip, true), some (ip, first), e.notifyOk⟩,
           e.notifyOk)) := by
  unfold initialCycle
  cases hres : resolveOf parseIp sources e with
  | error err => exact Or.inl ⟨rfl, Or.inl ⟨err, rfl⟩⟩
  | ok ip =>
    dsimp only
    by_cases hr : e.readOk = true
    · rw [if_pos hr]
      cases hlast : get_last_ip store with
      | none =>
        dsimp only
        by_cases hw : e.writeOk = true
        · rw [if_pos hw]
          exact Or.inr (Or.inr (Or.inr
            ⟨ip, true, rfl, hr, hw, Or.inl ⟨rfl, rfl⟩, rfl⟩))
        · rw [if_neg hw]
          exact Or.inr (Or.inr (Or.inl
            ⟨ip, true, rfl, hr, by simpa using hw, Or.inl ⟨rfl, rfl⟩, rfl⟩))
      | some y =>
        dsimp only
        by_cases hne : ip ≠ y
        · rw [if_pos hne]
          by_cases hw : e.writeOk = true
          · rw [if_pos hw]
            exact Or.inr (Or.inr (Or.inr
              ⟨ip, false, rfl, hr, hw, Or.inr ⟨rfl, y, rfl, hne⟩, rfl⟩))
          · rw [if_neg hw]
            exact Or.inr (Or.inr (Or.inl
              ⟨ip, false, rfl, hr, by simpa using hw, Or.inr ⟨rfl, y, rfl, hne⟩, rfl⟩))
        · rw [if_neg hne]
          exact Or.inr (Or.inl ⟨ip, y, rfl, hr, rfl, not_not.mp hne, rfl⟩)
    · rw [if_neg hr]
      exact Or.inl ⟨rfl, Or.inr (by simpa using hr)⟩

lemma initialCycle_cont_ne_nil (parseIp : String → Option Addr)
    (sources : Option (List String)) (e : CycleEnv Addr) (store : Store Addr)
    (h : (initialCycle parseIp sources e store).2 = true) :
    (initialCycle parseIp sources e store).1.store ≠ [] := by
  rcases initialCycle_spec parseIp sources e store with ⟨hc, _⟩ |
      ⟨ip, y, _, _, hy, _, hc⟩ | ⟨ip, first, _, _, _, _, hc⟩ |
      ⟨ip, first, _, _, _, _, hc⟩ <;> rw [hc] at h ⊢
  · simp at h
  · exact get_last_ne_nil hy
  · simp at h
  · simp [save_ip]

/-! Helper lemmas about the polling loop as a whole. -/

lemma chainStates_length (parseIp : String → Option Addr)
    (sources : Option (List String)) :
    ∀ (es : List (CycleEnv Addr)) (st : Store Addr),
      (chainStates parseIp sources es st).length = es.length
  | [], _ => rfl
  | e :: rest, st => by
    simp only [chainStates, List.length_cons,
      chainStates_length parseIp sources rest]

lemma chainStates_decision (parseIp : String → Option Addr)
    (sources : Option (List String)) :
    ∀ (es : List (CycleEnv Addr)) (st : Store Addr), st ≠ [] →
      ∀ t ∈ chainStates parseIp sources es st,
        ∀ x, resolveOf parseIp sources t.1 = Except.ok x →
          t.1.readOk = true → t.1.writeOk = true →
          decisionTableOk (get_last_ip t.2.1) x t.2.2
  | [], _, _ => by intro t ht; simp [chainStates] at ht
  | e :: rest, st, hst => by
    intro t ht
    simp only [chainStates, List.mem_cons] at ht
    rcases ht with rfl | ht
    · intro x hx hr hw
      exact pollCycle_decision parseIp sources e st x hst hx hr hw
    · exact chainStates_decision parseIp sources rest
        (pollCycle parseIp sources e st).store
        (pollCycle_store_ne_nil parseIp sources e st hst) t ht

lemma chainStates_frozen (parseIp : String → Option Addr)
    (sources : Option (List String)) (a : Addr) :
    ∀ (es : List (CycleEnv Addr)) (st : Store Addr),
      get_last_ip st = some a →
      (∀ e ∈ es, ∀ b, resolveOf parseIp sources e = Except.ok b → b = a) →
      ∀ t ∈ chainStates parseIp sources es st,
        t.2.2.appendResult = none ∧ t.2.2.notifyAttempt = none
  | [], _, _, _ => by intro t ht; simp [chainStates] at ht
  | e :: rest, st, hlast, hres => by
    intro t ht
    have hcyc : pollCycle parseIp sources e st = ⟨st, none, none, true⟩ :=
      pollCycle_unchanged parseIp sources e st a hlast
        (hres e (List.mem_cons_self e rest))
    simp only [chainStates, hcyc, List.mem_cons] at ht
    rcases ht with rfl | ht
    · exact ⟨rfl, rfl⟩
    · exact chainStates_frozen parseIp sources a rest st hlast
        (fun e2 he2 => hres e2 (List.mem_cons_of_mem e he2)) t ht

/-! Helper lemmas unfolding `runMain`. -/

lemma runMain_cont (parseIp : String → Option Addr) (env : RunEnv Addr) (fuel : Nat)
    (hnj : env.cancel ≠ CancelTime.duringJitter)
    (hc : env.configOk = true) (hd : env.dbOk = true) (hm : env.mailerOk = true)
    (hh : env.httpOk = true)
    (hcont : (initialCycle parseIp env.sources env.initialEnv env.initialStore).2 = true) :
    (runMain parseIp env fuel).pollTrace =
      chainStates parseIp env.sources
        ((List.range (pollBudget env.cancel fuel)).map env.loopEnvs)
        (initialCycle parseIp env.sources env.initialEnv env.initialStore).1.store ∧
    (runMain parseIp env fuel).exitedWithError = false ∧
    (runMain parseIp env fuel).initialOutcome =
      some (initialCycle parseIp env.sources env.initialEnv env.initialStore).1 := by
  unfold runMain
  simp [hnj, hc, hd, hm, hh, hcont]

lemma runMain_stop (parseIp : String → Option Addr) (env : RunEnv Addr) (fuel : Nat)
    (hnj : env.cancel ≠ CancelTime.duringJitter)
    (hc : env.configOk = true) (hd : env.dbOk = true) (hm : env.mailerOk = true)
    (hh : env.httpOk = true)
    (hcont : (initialCycle parseIp env.sources env.initialEnv env.initialStore).2 = false) :
    (runMain parseIp env fuel).pollTrace = [] ∧
    (runMain parseIp env fuel).exitedWithError = true := by
  unfold runMain
  simp [hnj, hc, hd, hm, hh, hcont]

/-- In a run whose cancellation signal arrives during the startup jitter
sleep, the process dies mid-sleep: the trace holds only the interrupted
jitter sleep, the initial check never runs, and no polling cycle runs. -/
lemma runMain_killed (parseIp : String → Option Addr) (env : RunEnv Addr) (fuel : Nat)
    (hj : env.cancel = CancelTime.duringJitter) :
    (runMain parseIp env fuel).trace =
      [Event.jitterSleep (jitterSecs env.jitterSeed)] ∧
    (runMain parseIp env fuel).initialOutcome = none ∧
    (runMain parseIp env fuel).pollTrace = [] ∧
    (runMain parseIp env fuel).exitedWithError = true := by
  unfold runMain
  simp [hj]

/-! Concrete instances used by the witness theorems (addresses are `Nat`,
the parser accepts the texts "7" and "9"). -/

def exParse : String → Option Nat :=
  fun s => if s = "7" then some 7 else if s = "9" then some 9 else none

def exSrc : Option (List String) := some ["https://api.ipify.org"]

def exFetchSeven : String → FetchOutcome :=
  fun _ => FetchOutcome.response true (some " 7 ")

def exFetchDown : String → FetchOutcome := fun _ => FetchOutcome.transportErr

def exFetchMid : String → FetchOutcome :=
  fun url => if url = "b" then FetchOutcome.response true (some " 7 ")
    else FetchOutcome.transportErr

/-! Claim theorems. -/

/-- C3: for every non-empty source list in which at least one source
yields a response whose body, after trimming surrounding whitespace,
parses as a valid IP address, `query_external_ip` returns the address from
the earliest-listed such source (here source `u`, coming after the failing
sources `l1`), regardless of the behavior of every later source (the
sources `l2` and the values of `fetch` on them are unconstrained). -/
theorem c3_resolver_first_success (parseIp : String → Option Addr)
    (fetch : String → FetchOutcome) (sources : Option (List String))
    (l1 l2 : List String) (u : String) (a : Addr)
    (hl : sources.getD defaultSources = l1 ++ u :: l2)
    (h1 : ∀ v ∈ l1, sourceGivesIp parseIp fetch v = none)
    (h2 : sourceGivesIp parseIp fetch u = some a) :
    query_external_ip parseIp fetch sources = Except.ok a := by
  have ht : tryAll (sourceGivesIp parseIp fetch) (l1 ++ u :: l2) = some a := by
    rw [tryAll_append_none (sourceGivesIp parseIp fetch) l1 h1 (u :: l2)]
    simp [tryAll, h2]
  unfold query_external_ip
  simp [hl, ht]

/-- C3 witness: with sources `["a", "b", "c"]` where `"a"` has a transport
error, `"b"` answers `" 7 "` (whitespace trimmed, then parsed) and `"c"`
is irrelevant, the resolver returns address 7 from `"b"`. -/
theorem c3_witness :
    query_external_ip exParse exFetchMid (some ["a", "b", "c"]) = Except.ok 7 :=
  c3_resolver_first_success exParse exFetchMid (some ["a", "b", "c"])
    ["a"] ["c"] "b" 7 rfl
    (by intro v hv
        simp only [List.mem_singleton] at hv
        subst hv
        rfl)
    rfl

/-- C4: `query_external_ip` fails iff either the effective source list is
empty — failing with `NoSources` and fetching nothing — or every source in
the list fails or returns unparseable data — failing with
`AllSourcesFailed`.  The result type returns no address at all on the
failure side, so no partial or cached address is ever returned on
failure. -/
theorem c4_resolver_failure_characterization (parseIp : String → Option Addr)
    (fetch : String → FetchOutcome) (sources : Option (List String)) :
    (∀ err, query_external_ip parseIp fetch sources = Except.error err ↔
        (sources.getD defaultSources = [] ∧ err = QueryError.NoSources) ∨
        (sources.getD defaultSources ≠ [] ∧ err = QueryError.AllSourcesFailed ∧
          ∀ u ∈ sources.getD defaultSources, sourceGivesIp parseIp fetch u = none)) ∧
    (sources.getD defaultSources = [] → queryFetched parseIp fetch sources = []) := by
  constructor
  · intro err
    unfold query_external_ip
    cases hl : sources.getD defaultSources with
    | nil =>
      simp only [hl, List.isEmpty_nil, if_true]
      constructor
      · intro h
        exact Or.inl ⟨trivial, (Except.error.inj h).symm⟩
      · rintro (⟨-, rfl⟩ | ⟨hne, -, -⟩)
        · rfl
        · exact absurd rfl hne
    | cons v rest =>
      simp only [hl, List.isEmpty_cons, if_false, Bool.false_eq_true]
      cases htry : tryAll (sourceGivesIp parseIp fetch) (v :: rest) with
      | some ip =>
        simp only [htry]
        constructor
        · intro h
          exact absurd h (by simp)
        · rintro (⟨hnil, -⟩ | ⟨-, -, hall⟩)
          · exact absurd hnil (by simp)
          · rw [(tryAll_eq_none_iff (sourceGivesIp parseIp fetch) (v :: rest)).mpr hall]
              at htry
            exact absurd htry (by simp)
      | none =>
        simp only [htry]
        constructor
        · intro h
          exact Or.inr ⟨by simp, (Except.error.inj h).symm,
            (tryAll_eq_none_iff (sourceGivesIp parseIp fetch) (v :: rest)).mp htry⟩
        · rintro (⟨hnil, -⟩ | ⟨-, rfl, -⟩)
          · exact absurd hnil (by simp)
          · rfl
  · intro h
    unfold queryFetched
    simp [h]

/-- C4 witness: an explicitly configured empty source list fails with
`NoSources` and the loop fetches no URL at all. -/
theorem c4_witness :
    query_external_ip exParse exFetchDown (some ([] : List String)) =
        Except.error QueryError.NoSources ∧
    queryFetched exParse exFetchDown (some ([] : List String)) = [] :=
  ⟨((c4_resolver_failure_characterization exParse exFetchDown (some [])).1
      QueryError.NoSources).mpr (Or.inl ⟨rfl, rfl⟩),
   (c4_resolver_failure_characterization exParse exFetchDown (some [])).2 rfl⟩

/-- C8: on a freshly created store `lastAddress` is empty; after
`append A` then `append B` the last address is `B`; and the last address
of any store built purely from appends is one of the appended values. -/
theorem c8_store_contract (s : Store Addr) (A B a : Addr) (obs : List Addr) :
    get_last_ip ([] : Store Addr) = none ∧
    get_last_ip (save_ip (save_ip s A) B) = some B ∧
    (get_last_ip (buildStore obs) = some a → a ∈ obs) := by
  refine ⟨rfl, get_last_save _ B, fun h => ?_⟩
  rw [buildStore_eq] at h
  exact get_last_mem h

/-- C8 witness: concrete store runs for each conjunct. -/
theorem c8_witness :
    get_last_ip ([] : Store Nat) = none ∧
    get_last_ip (save_ip (save_ip ([3] : Store Nat) 1) 2) = some 2 ∧
    (5 : Nat) ∈ [4, 5] :=
  ⟨(c8_store_contract ([3] : Store Nat) 1 2 5 [4, 5]).1,
   (c8_store_contract ([3] : Store Nat) 1 2 5 [4, 5]).2.1,
   (c8_store_contract ([3] : Store Nat) 1 2 5 [4, 5]).2.2 (by decide)⟩

/-- C9: the effective polling interval is `max i 30`: an interval below
the 30-second floor is clamped up to the floor, and an interval at or
above the floor is used unchanged. -/
theorem c9_interval_floor (i : Nat) :
    effectiveInterval i = max i 30 ∧
    (i < 30 → effectiveInterval i = 30) ∧
    (30 ≤ i → effectiveInterval i = i) := by
  refine ⟨rfl, fun h => ?_, fun h => ?_⟩
  · simp only [effectiveInterval, Nat.max_def]
    split <;> omega
  · simp only [effectiveInterval, Nat.max_def]
    split <;> omega

/-- C9 witness: 7 seconds is clamped to 30; 45 seconds is kept. -/
theorem c9_witness :
    (7 < 30 ∧ effectiveInterval 7 = 30) ∧ (30 ≤ 45 ∧ effectiveInterval 45 = 45) :=
  ⟨⟨by decide, (c9_interval_floor 7).2.1 (by decide)⟩,
   ⟨by decide, (c9_interval_floor 45).2.2 (by decide)⟩⟩

/-- Concrete cycle environments for the witness runs. -/
def exEnvOk : CycleEnv Nat := ⟨exFetchSeven, true, true, true⟩

def exEnvResolveFail : CycleEnv Nat := ⟨exFetchDown, true, true, true⟩

def exEnvWriteFail : CycleEnv Nat := ⟨exFetchSeven, true, false, true⟩

def exEnvNotifyFail : CycleEnv Nat := ⟨exFetchSeven, true, true, false⟩

/-- A run whose initial check fails to resolve (all sources down). -/
def exRunInitFail : RunEnv Nat :=
  ⟨0, true, true, true, true, exSrc, 60, [], exEnvResolveFail,
    fun _ => exEnvOk, CancelTime.never⟩

/-- A fully healthy run that is never cancelled. -/
def exRunOk : RunEnv Nat :=
  ⟨0, true, true, true, true, exSrc, 60, [], exEnvOk,
    fun _ => exEnvOk, CancelTime.never⟩

/-- A healthy run whose cancellation signal arrives during the startup
jitter sleep (the process is killed mid-sleep by the default SIGINT
disposition). -/
def exRunJitterCancel : RunEnv Nat :=
  ⟨0, true, true, true, true, exSrc, 60, [], exEnvOk,
    fun _ => exEnvOk, CancelTime.duringJitter⟩

/-- A healthy run cancelled during the third inter-cycle wait. -/
def exRunWait : RunEnv Nat :=
  ⟨0, true, true, true, true, exSrc, 60, [], exEnvOk,
    fun _ => exEnvOk, CancelTime.duringWait 2⟩

/-- A run whose configuration file fails to load. -/
def exRunBadConfig : RunEnv Nat :=
  ⟨0, false, true, true, true, exSrc, 60, [], exEnvOk,
    fun _ => exEnvOk, CancelTime.never⟩

/-- C5: in every cycle — polling-loop or initial — in which the append was
attempted and failed, no notification is attempted in that cycle: the
write error ends the cycle before any send. -/
theorem c5_write_failure_blocks_notify (parseIp : String → Option Addr)
    (sources : Option (List String)) (e : CycleEnv Addr) (store : Store Addr)
    (a : Addr) :
    ((pollCycle parseIp sources e store).appendResult = some (a, false) →
       (pollCycle parseIp sources e store).notifyAttempt = none) ∧
    ((initialCycle parseIp sources e store).1.appendResult = some (a, false) →
       (initialCycle parseIp sources e store).1.notifyAttempt = none) := by
  constructor
  · intro h
    rcases pollCycle_spec parseIp sources e store with hc | ⟨ip, _, _, _, _, hc⟩ |
        ⟨ip, _, _, _, _, hc⟩ <;> rw [hc] at h ⊢ <;>
      first
        | rfl
        | simp at h
  · intro h
    rcases initialCycle_spec parseIp sources e store with ⟨hc, _⟩ |
        ⟨ip, y, _, _, _, _, hc⟩ | ⟨ip, first, _, _, _, _, hc⟩ |
        ⟨ip, first, _, _, _, _, hc⟩ <;> rw [hc] at h ⊢ <;>
      first
        | rfl
        | simp at h

/-- C5 witness: a polling cycle with a fresh address and a failing write
attempts the append, fails, and attempts no notification. -/
theorem c5_witness :
    (pollCycle exParse exSrc exEnvWriteFail ([] : Store Nat)).appendResult
        = some (7, false) ∧
    (pollCycle exParse exSrc exEnvWriteFail ([] : Store Nat)).notifyAttempt = none :=
  ⟨rfl, (c5_write_failure_blocks_notify exParse exSrc exEnvWriteFail [] 7).1 rfl⟩

/-- C6: if a polling cycle durably appends address `a` and its
notification attempt fails, then every later cycle run while the address
stays unchanged (each resolution in the chain that succeeds yields `a`
again) performs no append and no notification attempt: the durably
recorded address, not the notification outcome, drives deduplication. -/
theorem c6_no_duplicate_notification (parseIp : String → Option Addr)
    (sources : Option (List String)) (e : CycleEnv Addr) (s : Store Addr) (a : Addr)
    (es : List (CycleEnv Addr))
    (happend : (pollCycle parseIp sources e s).appendResult = some (a, true))
    (hattempt : (pollCycle parseIp sources e s).notifyAttempt.isSome = true)
    (hfail : (pollCycle parseIp sources e s).notifySendOk = false)
    (hsame : ∀ e2 ∈ es, ∀ b, resolveOf parseIp sources e2 = Except.ok b → b = a) :
    ∀ t ∈ chainStates parseIp sources es (pollCycle parseIp sources e s).store,
      t.2.2.appendResult = none ∧ t.2.2.notifyAttempt = none := by
  have hstore : (pollCycle parseIp sources e s).store = save_ip s a :=
    pollCycle_append_store parseIp sources e s a happend
  rw [hstore]
  exact chainStates_frozen parseIp sources a es (save_ip s a) (get_last_save s a) hsame

/-- C6 witness: a cycle appends 7 with a failing send; the next cycle,
resolving 7 again, appends nothing and attempts no notification. -/
theorem c6_witness :
    ((pollCycle exParse exSrc exEnvNotifyFail ([] : Store Nat)).appendResult
        = some (7, true) ∧
     (pollCycle exParse exSrc exEnvNotifyFail ([] : Store Nat)).notifySendOk = false) ∧
    ((exEnvOk, ([7] : Store Nat),
        pollCycle exParse exSrc exEnvOk ([7] : Store Nat)).2.2.appendResult = none ∧
     (exEnvOk, ([7] : Store Nat),
        pollCycle exParse exSrc exEnvOk ([7] : Store Nat)).2.2.notifyAttempt = none) := by
  refine ⟨⟨rfl, rfl⟩, ?_⟩
  refine c6_no_duplicate_notification exParse exSrc exEnvNotifyFail [] 7 [exEnvOk]
    rfl rfl rfl ?_
    (exEnvOk, ([7] : Store Nat), pollCycle exParse exSrc exEnvOk ([7] : Store Nat)) ?_
  · intro e2 he2 b hb
    simp only [List.mem_singleton] at he2
    subst he2
    rw [show resolveOf exParse exSrc exEnvOk = Except.ok 7 from rfl] at hb
    exact (Except.ok.inj hb).symm
  · exact List.Mem.head _

/-- C2: in every cycle where resolution yields `x` and the store read and
write succeed, the decision table holds against the store's prior
address: no prior address gives append plus `first = true` notification
(this case arises only in the initial check), an unchanged prior gives no
append and no notification, and a different prior gives append plus
`first = false` notification.  The initial-check conjunct holds for every
initial check — including those whose notification send then fails and
aborts `main`, since the append and the send attempt happen before the
`?`.  For polling-loop cycles (reachable only when the initial check
continued) the store is provably non-empty, so the no-prior row is never
exercised there. -/
theorem c2_decision_table (parseIp : String → Option Addr) (env : RunEnv Addr) :
    (∀ x, resolveOf parseIp env.sources env.initialEnv = Except.ok x →
       env.initialEnv.readOk = true → env.initialEnv.writeOk = true →
       decisionTableOk (get_last_ip env.initialStore) x
         (initialCycle parseIp env.sources env.initialEnv env.initialStore).1) ∧
    ((initialCycle parseIp env.sources env.initialEnv env.initialStore).2 = true →
     ∀ es, ∀ t ∈ chainStates parseIp env.sources es
          (initialCycle parseIp env.sources env.initialEnv env.initialStore).1.store,
       ∀ x, resolveOf parseIp env.sources t.1 = Except.ok x →
         t.1.readOk = true → t.1.writeOk = true →
         decisionTableOk (get_last_ip t.2.1) x t.2.2) := by
  constructor
  · intro x hx hr hw
    rcases initialCycle_spec parseIp env.sources env.initialEnv env.initialStore with
        ⟨hc, ⟨err, herr⟩ | hro⟩ | ⟨ip, y, hres, _, hy, hiy, hc⟩ |
        ⟨ip, first, hres, _, hwf, _, hc⟩ | ⟨ip, first, hres, _, _, hfirst, hc⟩
    · rw [herr] at hx
      exact absurd hx (by simp)
    · rw [hro] at hr
      exact absurd hr (by simp)
    · rw [hc]
      rw [hres] at hx
      have hipx : ip = x := Except.ok.inj hx
      rw [hy]
      have hyx : y = x := hiy ▸ hipx
      simp [decisionTableOk, hyx]
    · rw [hwf] at hw
      exact absurd hw (by simp)
    · rw [hc]
      rw [hres] at hx
      have hipx : ip = x := Except.ok.inj hx
      subst hipx
      rcases hfirst with ⟨hf, hnone⟩ | ⟨hf, y, hy, hneq⟩
      · rw [hnone]
        subst hf
        simp [decisionTableOk]
      · rw [hy]
        subst hf
        simp [decisionTableOk, Ne.symm hneq]
  · intro hcont es t ht x hx hr hw
    exact chainStates_decision parseIp env.sources es _
      (initialCycle_cont_ne_nil parseIp env.sources env.initialEnv env.initialStore
        hcont)
      t ht x hx hr hw

/-- C2 witness: the initial check of the healthy run, on an empty store
resolving 7, satisfies the decision table (appends 7 and notifies with
`first = true`). -/
theorem c2_witness :
    decisionTableOk (get_last_ip exRunOk.initialStore) 7
      (initialCycle exParse exRunOk.sources exRunOk.initialEnv
        exRunOk.initialStore).1 :=
  (c2_decision_table exParse exRunOk).1 7 rfl rfl rfl

/-- C1 counterexample: in a run whose startup steps all succeed and that
is never cancelled, a resolution failure in the first cycle run after the
startup jitter (the initial check in `main`) makes `main` return an error
and no polling cycle ever runs — contradicting the claim that a
resolution failure in that cycle only ends the cycle and the next
scheduled cycle still runs. -/
theorem c1_counterexample :
    exRunInitFail.cancel = CancelTime.never ∧
    (runMain exParse exRunInitFail 5).exitedWithError = true ∧
    (runMain exParse exRunInitFail 5).pollTrace = [] :=
  ⟨rfl, rfl, rfl⟩

/-- C1 amended: for every polling-loop cycle, no resolution, store read,
store write, or notification failure terminates the scheduler — whatever
the per-cycle environments do, the loop runs exactly the number of cycles
the cancellation signal (and modeling fuel) allows.  However, in the first
cycle run after the startup jitter (the initial check in `main`), any such
failure terminates the process before the loop starts; only
configuration-time failures, a failure of that initial check, or the
cancellation signal stop the scheduling loop.  (A signal arriving already
during the jitter kills the process before the initial check, so the two
conjuncts about the initial check's outcome concern the runs that reach
it; the first conjunct records that in a jitter-killed run nothing runs at
all.) -/
theorem c1_amended_cycle_local_failures (parseIp : String → Option Addr)
    (env : RunEnv Addr) (fuel : Nat)
    (hc : env.configOk = true) (hd : env.dbOk = true) (hm : env.mailerOk = true)
    (hh : env.httpOk = true) :
    (env.cancel = CancelTime.duringJitter →
       (runMain parseIp env fuel).pollTrace = [] ∧
       (runMain parseIp env fuel).initialOutcome = none) ∧
    (env.cancel ≠ CancelTime.duringJitter →
      ((initialCycle parseIp env.sources env.initialEnv env.initialStore).2
          = true →
        (runMain parseIp env fuel).exitedWithError = false ∧
        (runMain parseIp env fuel).pollTrace.length = pollBudget env.cancel fuel) ∧
      ((initialCycle parseIp env.sources env.initialEnv env.initialStore).2
          = false →
        (runMain parseIp env fuel).exitedWithError = true ∧
        (runMain parseIp env fuel).pollTrace = [])) := by
  constructor
  · intro hj
    obtain ⟨-, hi, hp, -⟩ := runMain_killed parseIp env fuel hj
    exact ⟨hp, hi⟩
  intro hnj
  constructor
  · intro hcont
    obtain ⟨hp, he, _⟩ := runMain_cont parseIp env fuel hnj hc hd hm hh hcont
    refine ⟨he, ?_⟩
    rw [hp, chainStates_length, List.length_map, List.length_range]
  · intro hcont
    exact ⟨(runMain_stop parseIp env fuel hnj hc hd hm hh hcont).2,
      (runMain_stop parseIp env fuel hnj hc hd hm hh hcont).1⟩

/-- C1 witness: the healthy never-cancelled run enters the loop and runs
every scheduled cycle. -/
theorem c1_witness :
    (runMain exParse exRunOk 5).exitedWithError = false ∧
    (runMain exParse exRunOk 5).pollTrace.length = pollBudget exRunOk.cancel 5 :=
  ((c1_amended_cycle_local_failures exParse exRunOk 5 rfl rfl rfl rfl).2
    (by decide)).1 rfl

/-- C7: if the cancellation signal is requested during the startup jitter
delay, no further cycle starts — no SIGINT handler exists yet
(`signal::ctrl_c()` installs one only when first polled, inside the
`tokio::select!`), so the default disposition terminates the process
mid-sleep: the trace ends at the interrupted jitter sleep, the initial
check never runs and no polling cycle runs; the jitter delay is thus
itself cancelled.  If the signal is requested during the `(m+1)`-th
inter-cycle wait, the select's cancellation branch wins the race and
exactly the first `m` polling cycles have run — no further cycle
starts. -/
theorem c7_cancellation_stops_cycles (parseIp : String → Option Addr)
    (env : RunEnv Addr) (fuel m : Nat) :
    (env.cancel = CancelTime.duringJitter →
       (runMain parseIp env fuel).trace =
         [Event.jitterSleep (jitterSecs env.jitterSeed)] ∧
       (runMain parseIp env fuel).initialOutcome = none ∧
       (runMain parseIp env fuel).pollTrace = []) ∧
    (env.cancel = CancelTime.duringWait m → m ≤ fuel →
       env.configOk = true → env.dbOk = true → env.mailerOk = true →
       env.httpOk = true →
       (initialCycle parseIp env.sources env.initialEnv env.initialStore).2
          = true →
       (runMain parseIp env fuel).pollTrace.length = m) := by
  constructor
  · intro hj
    obtain ⟨ht, hi, hp, -⟩ := runMain_killed parseIp env fuel hj
    exact ⟨ht, hi, hp⟩
  · intro hcan hmf hc hd hm hh hcont
    have hnj : env.cancel ≠ CancelTime.duringJitter := by
      rw [hcan]
      exact fun hcon => CancelTime.noConfusion hcon
    obtain ⟨hp, -, -⟩ := runMain_cont parseIp env fuel hnj hc hd hm hh hcont
    rw [hp, chainStates_length, List.length_map, List.length_range, hcan]
    simp [pollBudget, Nat.min_eq_left hmf]

/-- C7 witness: with the signal arriving during the jitter, nothing beyond
the interrupted sleep happens; with the signal arriving during the third
inter-cycle wait, exactly two polling cycles run. -/
theorem c7_witness :
    ((runMain exParse exRunJitterCancel 5).initialOutcome = none ∧
     (runMain exParse exRunJitterCancel 5).pollTrace = []) ∧
    (runMain exParse exRunWait 5).pollTrace.length = 2 := by
  constructor
  · have h := (c7_cancellation_stops_cycles exParse exRunJitterCancel 5 0).1 rfl
    exact ⟨h.2.1, h.2.2⟩
  · exact (c7_cancellation_stops_cycles exParse exRunWait 5 2).2 rfl (by decide)
      rfl rfl rfl rfl rfl

/-- Recognizer for the jitter-sleep event. -/
def isJitterEvent : Event Addr → Bool
  | Event.jitterSleep _ => true
  | _ => false

lemma cycleEvents_no_jitter (o : CycleOutcome Addr) :
    ∀ ev ∈ cycleEvents o, isJitterEvent ev = false := by
  intro ev hev
  unfold cycleEvents at hev
  rcases List.mem_cons.mp hev with rfl | hev2
  · rfl
  rcases List.mem_append.mp hev2 with h | h
  · rcases har : o.appendResult with _ | p
    · rw [har] at h
      simp at h
    · rw [har] at h
      rcases p with ⟨a, b⟩
      simp only [List.mem_singleton] at h
      subst h
      rfl
  · rcases hna : o.notifyAttempt with _ | p
    · rw [hna] at h
      simp at h
    · rw [hna] at h
      rcases p with ⟨a, b⟩
      simp only [List.mem_singleton] at h
      subst h
      rfl

/-- The trace of every run starts with the jitter sleep, and the jitter
sleep never occurs again later. -/
lemma runMain_trace_shape (parseIp : String → Option Addr) (env : RunEnv Addr)
    (fuel : Nat) :
    ∃ rest, (runMain parseIp env fuel).trace =
        Event.jitterSleep (jitterSecs env.jitterSeed) :: rest ∧
      ∀ ev ∈ rest, isJitterEvent ev = false := by
  unfold runMain
  by_cases hj : env.cancel = CancelTime.duringJitter
  · refine ⟨[], by simp [hj], ?_⟩
    intro ev hev
    exact absurd hev (List.not_mem_nil ev)
  by_cases hc : env.configOk = false
  · refine ⟨[Event.loadConfig], by simp [hj, hc], ?_⟩
    intro ev hev
    fin_cases hev
    rfl
  by_cases hd : env.dbOk = false
  · refine ⟨[Event.loadConfig, Event.initDb], by simp [hj, hc, hd], ?_⟩
    intro ev hev
    fin_cases hev <;> rfl
  by_cases hm : env.mailerOk = false
  · refine ⟨[Event.loadConfig, Event.initDb, Event.buildMailer],
      by simp [hj, hc, hd, hm], ?_⟩
    intro ev hev
    fin_cases hev <;> rfl
  by_cases hh : env.httpOk = false
  · refine ⟨[Event.loadConfig, Event.initDb, Event.buildMailer,
      Event.buildHttpClient], by simp [hj, hc, hd, hm, hh], ?_⟩
    intro ev hev
    fin_cases hev <;> rfl
  have hforall4 : ∀ ev ∈ [Event.loadConfig, Event.initDb, Event.buildMailer,
      (Event.buildHttpClient : Event Addr)], isJitterEvent ev = false := by
    intro ev hev
    fin_cases hev <;> rfl
  by_cases hcont :
      (initialCycle parseIp env.sources env.initialEnv env.initialStore).2 = true
  · refine ⟨[Event.loadConfig, Event.initDb, Event.buildMailer,
      Event.buildHttpClient] ++
        cycleEvents (initialCycle parseIp env.sources env.initialEnv
          env.initialStore).1 ++
        ((chainStates parseIp env.sources
            ((List.range (pollBudget env.cancel fuel)).map env.loopEnvs)
            (initialCycle parseIp env.sources env.initialEnv
              env.initialStore).1.store).map
          (fun t => cycleEvents t.2.2)).flatten,
      by simp [hj, hc, hd, hm, hh, hcont], ?_⟩
    intro ev hev
    rcases List.mem_append.mp hev with h12 | h3
    · rcases List.mem_append.mp h12 with h1 | h2
      · exact hforall4 ev h1
      · exact cycleEvents_no_jitter _ ev h2
    · rcases List.mem_flatten.mp h3 with ⟨l, hl, hevl⟩
      rcases List.mem_map.mp hl with ⟨t, ht, rfl⟩
      exact cycleEvents_no_jitter _ ev hevl
  · refine ⟨[Event.loadConfig, Event.initDb, Event.buildMailer,
      Event.buildHttpClient] ++
        cycleEvents (initialCycle parseIp env.sources env.initialEnv
          env.initialStore).1,
      by simp [hj, hc, hd, hm, hh, hcont], ?_⟩
    intro ev hev
    rcases List.mem_append.mp hev with h1 | h2
    · exact hforall4 ev h1
    · exact cycleEvents_no_jitter _ ev h2

/-- C10: the startup jitter duration is always between 180 and 360
seconds inclusive; the jitter sleep is the first event of every run and
never recurs, so it completes before the configuration file is read,
before the database is opened, before the mail transport is built, and
before any resolver, store, or notifier activity; in a run killed by a
jitter-time signal the trace holds nothing but the interrupted jitter
sleep (so, a fortiori, no such activity precedes the jitter); and in
every other run a configuration error is surfaced only after the jitter
has elapsed — the failing run's trace is exactly the jitter sleep
followed by the config load. -/
theorem c10_jitter_before_everything (parseIp : String → Option Addr)
    (env : RunEnv Addr) (fuel : Nat) :
    180 ≤ jitterSecs env.jitterSeed ∧ jitterSecs env.jitterSeed ≤ 360 ∧
    (runMain parseIp env fuel).trace.head? =
      some (Event.jitterSleep (jitterSecs env.jitterSeed)) ∧
    (∀ ev ∈ (runMain parseIp env fuel).trace.tail, isJitterEvent ev = false) ∧
    (env.cancel = CancelTime.duringJitter →
       (runMain parseIp env fuel).trace =
         [Event.jitterSleep (jitterSecs env.jitterSeed)]) ∧
    (env.configOk = false → env.cancel ≠ CancelTime.duringJitter →
       (runMain parseIp env fuel).trace =
         [Event.jitterSleep (jitterSecs env.jitterSeed), Event.loadConfig] ∧
       (runMain parseIp env fuel).exitedWithError = true) := by
  obtain ⟨rest, heq, hrest⟩ := runMain_trace_shape parseIp env fuel
  refine ⟨by simp [jitterSecs], ?_, ?_, ?_, ?_, ?_⟩
  · have h : env.jitterSeed % 181 < 181 := Nat.mod_lt _ (by omega)
    simp only [jitterSecs]
    omega
  · rw [heq]
    rfl
  · rw [heq]
    exact hrest
  · intro hj
    exact (runMain_killed parseIp env fuel hj).1
  · intro hcfg hnj
    constructor
    · unfold runMain
      simp [hcfg, hnj]
    · unfold runMain
      simp [hcfg, hnj]

/-- C10 witness: a run with a failing configuration load sleeps the
jitter first and surfaces the error right after. -/
theorem c10_witness :
    (runMain exParse exRunBadConfig 3).trace =
      [Event.jitterSleep (jitterSecs exRunBadConfig.jitterSeed),
        Event.loadConfig] ∧
    (runMain exParse exRunBadConfig 3).exitedWithError = true :=
  (c10_jitter_before_everything exParse exRunBadConfig 3).2.2.2.2.2 rfl
    (by decide)

end

end IpWatcher
